import Mathlib

/-!
# Coordinator protocol client of gitlab-ci-multi-runner (`network/gitlab.go`)

A shallow embedding of `GitLabClient` and its coordinator operations.

* Go `int` status codes are `Int`; no arithmetic is done on them, so no overflow arises.
* A `*client` is a record carrying the address of its allocation; two pointers denote the
  same instance exactly when the records are equal.  Addresses are handed out by the
  allocation counter of the process state.
* Everything that lives outside `network/gitlab.go` (the transport primitives of
  `client`, the constants and registries of package `common`, the operating system) is
  collected in `Env`, over which all theorems quantify.
* Effects (the client cache, the file system, the log, the exchanges performed) are
  threaded explicitly through `Proc`.
* A Go run-time panic is the `Outcome.panic` result.
-/

set_option autoImplicit false

namespace network

/-! ## Data model -/

/-- The constant `clientError` of gitlab.go: the reserved status for a transport error. -/
def clientError : Int := -100

/-- Runner credentials (`common.RunnerCredentials`). -/
structure RunnerCredentials where
  URL : String
  Token : String
  TLSCAFile : String
  deriving DecidableEq, Repr

/-- Runner configuration (`common.RunnerConfig`): the credentials plus the settings used here. -/
structure RunnerConfig extends RunnerCredentials where
  Executor : String
  Shell : String
  deriving DecidableEq, Repr

/-- Job credentials (`common.BuildCredentials`). -/
structure BuildCredentials where
  ID : Int
  Token : String
  URL : String
  TLSCAFile : String
  deriving DecidableEq, Repr

/-- Capability flags (`common.FeaturesInfo`). -/
structure FeaturesInfo where
  Variables : Bool
  Image : Bool
  Services : Bool
  Artifacts : Bool
  Cache : Bool
  deriving DecidableEq, Repr

/-- Self-description sent with coordinator calls (`common.VersionInfo`). -/
structure VersionInfo where
  Name : String
  Version : String
  Revision : String
  Platform : String
  Architecture : String
  Executor : String
  Features : FeaturesInfo
  deriving DecidableEq, Repr

/-- Build states reported to the coordinator (`common.BuildState`). -/
inductive BuildState where
  | Pending
  | Running
  | Failed
  | Success
  deriving DecidableEq, Repr

/-- Result of a state update (`common.UpdateState`). -/
inductive UpdateState where
  | UpdateSucceeded
  | UpdateAbort
  | UpdateFailed
  deriving DecidableEq, Repr

/-- Result of an artifact upload (`common.UploadState`). -/
inductive UploadState where
  | UploadSucceeded
  | UploadTooLarge
  | UploadForbidden
  | UploadFailed
  deriving DecidableEq, Repr

/-- Result of an artifact download (`common.DownloadState`). -/
inductive DownloadState where
  | DownloadSucceeded
  | DownloadForbidden
  | DownloadFailed
  | DownloadNotFound
  deriving DecidableEq, Repr

/-- A job handed out by the coordinator (`common.GetBuildResponse`), with the fields the
runner reads; `TLSCAChain` is the one filled in by `GetBuild` itself. -/
structure GetBuildResponse where
  ID : Int
  ProjectID : Int
  Commands : String
  RepoURL : String
  Sha : String
  RefName : String
  Token : String
  TLSCAChain : String
  deriving DecidableEq, Repr

/-- Answer to a registration (`common.RegisterRunnerResponse`). -/
structure RegisterRunnerResponse where
  Token : String
  deriving DecidableEq, Repr

/-- The request values serialised by `doJSON` (the `request interface{}` argument). -/
inductive Request where
  | GetBuildRequest (Info : VersionInfo) (Token : String)
  | RegisterRunnerRequest (Info : VersionInfo) (Token Description Tags : String)
  | DeleteRunnerRequest (Token : String)
  | VerifyRunnerRequest (Token : String)
  | UpdateBuildRequest (Info : VersionInfo) (Token : String) (State : BuildState)
      (Trace : String)
  deriving DecidableEq, Repr

/-- The kind of value the `response interface{}` argument of `doJSON` points to. -/
inductive Target where
  | none
  | build
  | runner
  deriving DecidableEq, Repr

/-- The Go type behind each response target. -/
def Target.type : Target → Type
  | .none => Unit
  | .build => GetBuildResponse
  | .runner => RegisterRunnerResponse

/-- The zero value a response variable holds before anything is decoded into it. -/
def Target.zero : (t : Target) → t.type
  | .none => ()
  | .build =>
    { ID := 0, ProjectID := 0, Commands := "", RepoURL := "", Sha := "", RefName := "",
      Token := "", TLSCAChain := "" }
  | .runner => { Token := "" }

/-- What a JSON exchange hands back: status (or `clientError`), status text, the extra
trust-chain value, and the contents of the response variable after the call. -/
structure JSONReply (ρ : Type) where
  status : Int
  statusText : String
  certificates : String
  response : ρ

/-- A transport client (`*client`): the address of the allocation and what it was built from. -/
structure client where
  addr : Nat
  url : String
  caFile : String
  deriving DecidableEq, Repr

/-- The coordinator client (`GitLabClient`); `clients = none` is the nil map. -/
structure GitLabClient where
  clients : Option (List (String × client))
  deriving DecidableEq, Repr

/-- A readable byte source (`io.Reader`): the bytes it yields and the error, if any, with
which reading stops after them. -/
structure Reader where
  data : List Nat
  err : Option String
  deriving DecidableEq, Repr

/-- The multipart body streamed through the pipe of `UploadRawArtifacts`: one form file. -/
structure FormFile where
  fieldName : String
  fileName : String
  content : Reader
  deriving DecidableEq, Repr

/-- An HTTP response as far as gitlab.go looks at it (`*http.Response`). -/
structure Response where
  StatusCode : Int
  Status : String
  Body : Reader
  deriving DecidableEq, Repr

/-- A node of the file system. -/
inductive Node where
  | file (content : List Nat)
  | dir
  deriving DecidableEq, Repr

/-- Severity of a log line (logrus). -/
inductive Level where
  | debug
  | info
  | warning
  | error
  deriving DecidableEq, Repr

/-- One log line: severity, the `status` field when set with `WithField`, the arguments. -/
structure LogEntry where
  level : Level
  status : Option String
  args : List String
  deriving DecidableEq, Repr

/-- One exchange with the coordinator: the client used, the method and the path. -/
structure Call where
  c : client
  method : String
  uri : String
  deriving DecidableEq, Repr

/-- Everything outside gitlab.go that its functions consult. -/
structure Env where
  /-- the constants `common.NAME`, `common.VERSION`, `common.REVISION` -/
  NAME : String
  VERSION : String
  REVISION : String
  /-- the constants `runtime.GOOS`, `runtime.GOARCH` -/
  GOOS : String
  GOARCH : String
  /-- the lookup `common.GetExecutor(name)` and the effect of its `GetFeatures` -/
  GetExecutor : String → Option (FeaturesInfo → FeaturesInfo)
  /-- the lookup `common.GetShell(name)` and the effect of its `GetFeatures` -/
  GetShell : String → Option (FeaturesInfo → FeaturesInfo)
  /-- the error with which building a transport client for these credentials fails -/
  newClientErr : RunnerCredentials → Option String
  /-- the method `doJSON` of `client` (uri, method, expected status, request, target) -/
  clientDoJSON : client → String → String → Int → Request → (t : Target) → JSONReply t.type
  /-- the method `do` of `client` (uri, method, body, content type, headers) -/
  clientDo : client → String → String → Option FormFile → String → List (String × String) →
    Except String Response
  /-- the boundary chosen by `multipart.NewWriter` -/
  boundary : String
  /-- failure of `os.Open` on a path that exists -/
  openErr : String → Option String
  /-- failure of `Stat` on an open file -/
  statErr : String → Option String
  /-- failure of `os.Create` on a path that is not a directory -/
  createErr : String → Option String
  /-- failure of `os.Remove` on a path that holds a file -/
  removeErr : String → Option String
  /-- number of bytes a freshly created file accepts before a write fails, if bounded -/
  writeLimit : String → Option Nat

/-- The state of the running process that gitlab.go reads and writes. -/
structure Proc where
  n : GitLabClient
  allocs : Nat
  fs : List (String × Node)
  log : List LogEntry
  calls : List Call
  deriving DecidableEq, Repr

/-- A Go function either returns a value or panics with a run-time error. -/
inductive Outcome (α : Type) where
  | ret (a : α)
  | panic (msg : String)
  deriving DecidableEq, Repr

/-! ## Go maps -/

/-- Reading `m[key]`: the stored pointer, or nil (`none`) when absent or when the map is nil. -/
def mapGet (m : Option (List (String × client))) (key : String) : Option client :=
  match m with
  | none => none
  | some kvs => kvs.lookup key

/-- Writing `m[key] = c` on a non-nil map: the binding for `key` is replaced. -/
def mapSet (kvs : List (String × client)) (key : String) (c : client) :
    List (String × client) :=
  (key, c) :: kvs.filter (fun kv => kv.1 != key)

/-! ## Client registry -/

/-- Modelled from the spec: `newClient` (network/client.go is missing). It constructs a
new TransportClient, which may fail if the trust bundle cannot be loaded; on success the
result is a freshly allocated client for the endpoint, at address `allocs`. -/
def newClient (env : Env) (allocs : Nat) (runner : RunnerCredentials) : Except String client :=
  match env.newClientErr runner with
  | some e => .error e
  | none => .ok { addr := allocs, url := runner.URL, caFile := runner.TLSCAFile }

/-- The cache key of `getClient`: `fmt.Sprintf("%s_%s", runner.URL, runner.TLSCAFile)`. -/
def clientKey (runner : RunnerCredentials) : String :=
  runner.URL ++ "_" ++ runner.TLSCAFile

/-- The method `getClient`: the cached client for the key, else a new one that is stored. -/
def getClient (env : Env) (runner : RunnerCredentials) (p : Proc) :
    Except String client × Proc :=
  let kvs : List (String × client) :=
    match p.n.clients with
    | none => []
    | some kvs => kvs
  let key := clientKey runner
  match kvs.lookup key with
  | some c => (.ok c, { p with n := { clients := some kvs } })
  | none =>
    match newClient env p.allocs runner with
    | .error e => (.error e, { p with n := { clients := some kvs } })
    | .ok c =>
      (.ok c, { p with n := { clients := some (mapSet kvs key c) }, allocs := p.allocs + 1 })

/-! ## Helpers: logging, the file system, streams -/

/-- Appends one line to the log. -/
def logln (p : Proc) (level : Level) (status : Option String) (args : List String) : Proc :=
  { p with log := p.log ++ [{ level := level, status := status, args := args }] }

/-- The node at a path, if any. -/
def fsGet (fs : List (String × Node)) (path : String) : Option Node :=
  fs.lookup path

/-- Puts a node at a path, replacing what was there. -/
def fsSet (fs : List (String × Node)) (path : String) (node : Node) : List (String × Node) :=
  (path, node) :: fs.filter (fun kv => kv.1 != path)

/-- The call `os.Remove(path)` with its error dropped, as in the source: the entry
disappears unless the system refuses the removal, in which case everything stays. -/
def osRemove (env : Env) (fs : List (String × Node)) (path : String) :
    List (String × Node) :=
  match env.removeErr path with
  | some _ => fs
  | none => fs.filter (fun kv => kv.1 != path)

/-- The call `os.Open(path)`: fails when nothing is at the path or the system refuses;
otherwise yields the node (a directory can be opened). -/
def osOpen (env : Env) (fs : List (String × Node)) (path : String) : Except String Node :=
  match fsGet fs path with
  | none => .error ("open " ++ path ++ ": no such file or directory")
  | some node =>
    match env.openErr path with
    | some e => .error e
    | none => .ok node

/-- The call `os.Create(path)`: fails on a directory or when the system refuses; otherwise
the path holds an empty regular file. -/
def osCreate (env : Env) (fs : List (String × Node)) (path : String) :
    Except String (List (String × Node)) :=
  match fsGet fs path with
  | some .dir => .error ("open " ++ path ++ ": is a directory")
  | _ =>
    match env.createErr path with
    | some e => .error e
    | none => .ok (fsSet fs path (.file []))

/-- The call `io.Copy(dst, src)` into a file accepting `limit` bytes: the bytes written and
the error (a failed write, else the read error of the source; end of input is no error). -/
def ioCopy (limit : Option Nat) (src : Reader) : List Nat × Option String :=
  match limit with
  | none => (src.data, src.err)
  | some k =>
    if k < src.data.length then (src.data.take k, some "short write")
    else (src.data, src.err)

/-- The characters of a reversed path before its first separator: what the backwards loop
of `filepath.Base` walks over. -/
def lastElem : List Char → List Char
  | [] => []
  | c :: cs => if c = '/' then [] else c :: lastElem cs

/-- The function `filepath.Base` (Unix): the last element of the path. -/
def filepathBase (path : String) : String :=
  if path = "" then "."
  else
    let stripped := (path.data.reverse.dropWhile (fun c => c = '/'))
    let last := (lastElem stripped).reverse
    if last = [] then "/" else String.mk last

/-! ## Transport through the registry -/

/-- The method `getRunnerVersion`. -/
def getRunnerVersion (env : Env) (config : RunnerConfig) : VersionInfo :=
  let zero : FeaturesInfo :=
    { Variables := false, Image := false, Services := false, Artifacts := false,
      Cache := false }
  let f1 :=
    match env.GetExecutor config.Executor with
    | some executor => executor zero
    | none => zero
  let f2 :=
    match env.GetShell config.Shell with
    | some shell => shell f1
    | none => f1
  { Name := env.NAME, Version := env.VERSION, Revision := env.REVISION,
    Platform := env.GOOS, Architecture := env.GOARCH, Executor := config.Executor,
    Features := f2 }

/-- The method `doRaw`: obtain the client, then perform the raw exchange. -/
def doRaw (env : Env) (runner : RunnerCredentials) (method uri : String)
    (request : Option FormFile) (requestType : String) (headers : List (String × String))
    (p : Proc) : Except String Response × Proc :=
  match getClient env runner p with
  | (.error e, p1) => (.error e, p1)
  | (.ok c, p1) =>
    (env.clientDo c uri method request requestType headers,
      { p1 with calls := p1.calls ++ [{ c := c, method := method, uri := uri }] })

/-- The method `doJSON`: obtain the client, then perform the JSON exchange; a client that
cannot be obtained gives `clientError` and leaves the response variable untouched. -/
def doJSON (env : Env) (runner : RunnerCredentials) (method uri : String) (statusCode : Int)
    (request : Request) (t : Target) (p : Proc) : JSONReply t.type × Proc :=
  match getClient env runner p with
  | (.error e, p1) =>
    ({ status := clientError, statusText := e, certificates := "", response := t.zero }, p1)
  | (.ok c, p1) =>
    (env.clientDoJSON c uri method statusCode request t,
      { p1 with calls := p1.calls ++ [{ c := c, method := method, uri := uri }] })

/-! ## Coordinator operations -/

/-- The method `GetBuild`. -/
def GetBuild (env : Env) (config : RunnerConfig) (p : Proc) :
    (Option GetBuildResponse × Bool) × Proc :=
  let request := Request.GetBuildRequest (getRunnerVersion env config) config.Token
  let r := doJSON env config.toRunnerCredentials "POST" "builds/register.json" 201 request
    .build p
  let reply := r.1
  let p1 := r.2
  if reply.status = 201 then
    ((some { reply.response with TLSCAChain := reply.certificates }, true),
      logln p1 .info none ["Checking for builds...", "received"])
  else if reply.status = 403 then
    ((none, false), logln p1 .error none ["Checking for builds...", "forbidden"])
  else if reply.status = 204 ∨ reply.status = 404 then
    ((none, true), logln p1 .debug none ["Checking for builds...", "nothing"])
  else if reply.status = clientError then
    ((none, false),
      logln p1 .error (some reply.statusText) ["Checking for builds...", "error"])
  else
    ((none, true),
      logln p1 .warning (some reply.statusText) ["Checking for builds...", "failed"])

/-- The method `RegisterRunner`. -/
def RegisterRunner (env : Env) (runner : RunnerCredentials) (description tags : String)
    (p : Proc) : Option RegisterRunnerResponse × Proc :=
  let zeroConfig : RunnerConfig :=
    { URL := "", Token := "", TLSCAFile := "", Executor := "", Shell := "" }
  let request := Request.RegisterRunnerRequest (getRunnerVersion env zeroConfig) runner.Token
    description tags
  let r := doJSON env runner "POST" "runners/register.json" 201 request .runner p
  let reply := r.1
  let p1 := r.2
  if reply.status = 201 then
    (some reply.response, logln p1 .info none ["Registering runner...", "succeeded"])
  else if reply.status = 403 then
    (none, logln p1 .error none
      ["Registering runner...", "forbidden (check registration token)"])
  else if reply.status = clientError then
    (none, logln p1 .error (some reply.statusText) ["Registering runner...", "error"])
  else
    (none, logln p1 .error (some reply.statusText) ["Registering runner...", "failed"])

/-- The method `DeleteRunner`. -/
def DeleteRunner (env : Env) (runner : RunnerCredentials) (p : Proc) : Bool × Proc :=
  let request := Request.DeleteRunnerRequest runner.Token
  let r := doJSON env runner "DELETE" "runners/delete" 200 request .none p
  let reply := r.1
  let p1 := r.2
  if reply.status = 200 then
    (true, logln p1 .info none ["Deleting runner...", "succeeded"])
  else if reply.status = 403 then
    (false, logln p1 .error none ["Deleting runner...", "forbidden"])
  else if reply.status = clientError then
    (false, logln p1 .error (some reply.statusText) ["Deleting runner...", "error"])
  else
    (false, logln p1 .error (some reply.statusText) ["Deleting runner...", "failed"])

/-- The method `VerifyRunner`; the probed build id is the fabricated `-1`. -/
def VerifyRunner (env : Env) (runner : RunnerCredentials) (p : Proc) : Bool × Proc :=
  let request := Request.VerifyRunnerRequest runner.Token
  let r := doJSON env runner "PUT" ("builds/" ++ toString (-1 : Int)) 200 request .none p
  let reply := r.1
  let p1 := r.2
  if reply.status = 404 then
    (true, logln p1 .info none ["Verifying runner...", "is alive"])
  else if reply.status = 403 then
    (false, logln p1 .error none ["Verifying runner...", "is removed"])
  else if reply.status = clientError then
    (false, logln p1 .error (some reply.statusText) ["Verifying runner...", "error"])
  else
    (true, logln p1 .error (some reply.statusText) ["Verifying runner...", "failed"])

/-- The method `UpdateBuild`. -/
def UpdateBuild (env : Env) (config : RunnerConfig) (id : Int) (state : BuildState)
    (trace : String) (p : Proc) : UpdateState × Proc :=
  let request := Request.UpdateBuildRequest (getRunnerVersion env config) config.Token state
    trace
  let r := doJSON env config.toRunnerCredentials "PUT" ("builds/" ++ toString id ++ ".json")
    200 request .none p
  let reply := r.1
  let p1 := r.2
  if reply.status = 200 then
    (.UpdateSucceeded,
      logln p1 .info none [toString id, "Submitting build to coordinator...", "ok"])
  else if reply.status = 404 then
    (.UpdateAbort,
      logln p1 .warning none [toString id, "Submitting build to coordinator...", "aborted"])
  else if reply.status = 403 then
    (.UpdateAbort,
      logln p1 .error none [toString id, "Submitting build to coordinator...", "forbidden"])
  else if reply.status = clientError then
    (.UpdateAbort,
      logln p1 .error (some reply.statusText)
        [toString id, "Submitting build to coordinator...", "error"])
  else
    (.UpdateFailed,
      logln p1 .warning (some reply.statusText)
        [toString id, "Submitting build to coordinator...", "failed"])

/-- The method `UploadRawArtifacts`: the source is streamed as the form file `file` named
`baseName` into the raw exchange, whose outcome is classified. -/
def UploadRawArtifacts (env : Env) (config : BuildCredentials) (reader : Reader)
    (baseName : String) (p : Proc) : UploadState × Proc :=
  let body : FormFile := { fieldName := "file", fileName := baseName, content := reader }
  let mappedConfig : RunnerCredentials :=
    { URL := config.URL, Token := config.Token, TLSCAFile := config.TLSCAFile }
  let headers := [("BUILD-TOKEN", config.Token)]
  let r := doRaw env mappedConfig "POST" ("builds/" ++ toString config.ID ++ "/artifacts")
    (some body) ("multipart/form-data; boundary=" ++ env.boundary) headers p
  let p1 := r.2
  match r.1 with
  | .error e =>
    (.UploadFailed, logln p1 .error none ["Uploading artifacts to coordinator...", "error", e])
  | .ok res =>
    if res.StatusCode = 201 then
      (.UploadSucceeded, logln p1 .info none ["Uploading artifacts to coordinator...", "ok"])
    else if res.StatusCode = 403 then
      (.UploadForbidden,
        logln p1 .error none ["Uploading artifacts to coordinator...", "forbidden"])
    else if res.StatusCode = 413 then
      (.UploadTooLarge,
        logln p1 .error none ["Uploading artifacts to coordinator...", "too large archive"])
    else
      (.UploadFailed,
        logln p1 .warning none ["Uploading artifacts to coordinator...", "failed", res.Status])

/-- The bytes read from an opened node: the content of a regular file. -/
def nodeReader : Node → Reader
  | .file content => { data := content, err := none }
  | .dir => { data := [], err := some "is a directory" }

/-- The method `UploadArtifacts`: open, stat, refuse directories, then upload the file under
the base name of its path. -/
def UploadArtifacts (env : Env) (config : BuildCredentials) (artifactsFile : String)
    (p : Proc) : UploadState × Proc :=
  match osOpen env p.fs artifactsFile with
  | .error e =>
    (.UploadFailed, logln p .error none ["Uploading artifacts to coordinator...", "error", e])
  | .ok node =>
    match env.statErr artifactsFile with
    | some e =>
      (.UploadFailed,
        logln p .error none ["Uploading artifacts to coordinator...", "error", e])
    | none =>
      if node = .dir then
        (.UploadFailed,
          logln p .error none
            ["Uploading artifacts to coordinator...", "error", "cannot upload directories"])
      else
        UploadRawArtifacts env config (nodeReader node) (filepathBase artifactsFile) p

/-- The method `DownloadArtifacts`. On status 200 the target is created and the body copied
into it; when `os.Create` fails, `file` is nil and `file.Name()` dereferences it. -/
def DownloadArtifacts (env : Env) (config : BuildCredentials) (artifactsFile : String)
    (p : Proc) : Outcome DownloadState × Proc :=
  let mappedConfig : RunnerCredentials :=
    { URL := config.URL, Token := config.Token, TLSCAFile := config.TLSCAFile }
  let headers := [("BUILD-TOKEN", config.Token)]
  let r := doRaw env mappedConfig "GET" ("builds/" ++ toString config.ID ++ "/artifacts")
    none "" headers p
  let p1 := r.2
  match r.1 with
  | .error e =>
    (.ret .DownloadFailed,
      logln p1 .error none ["Uploading artifacts from coordinator...", "error", e])
  | .ok res =>
    if res.StatusCode = 200 then
      match osCreate env p1.fs artifactsFile with
      | .error _ =>
        (.panic "runtime error: invalid memory address or nil pointer dereference", p1)
      | .ok fs1 =>
        let copied := ioCopy (env.writeLimit artifactsFile) res.Body
        let written := fsSet fs1 artifactsFile (.file copied.1)
        match copied.2 with
        | some e =>
          (.ret .DownloadFailed,
            logln { p1 with fs := osRemove env written artifactsFile }
              .error none ["Uploading artifacts from coordinator...", "error", e])
        | none =>
          (.ret .DownloadSucceeded,
            logln { p1 with fs := written }
              .info none ["Downloading artifacts from coordinator...", "ok"])
    else if res.StatusCode = 403 then
      (.ret .DownloadForbidden,
        logln p1 .error none ["Downloading artifacts from coordinator...", "forbidden"])
    else if res.StatusCode = 404 then
      (.ret .DownloadNotFound,
        logln p1 .error none ["Downloading artifacts from coordinator...", "not found"])
    else
      (.ret .DownloadFailed,
        logln p1 .warning none
          ["Downloading artifacts from coordinator...", "failed", res.Status])

/-- The initial process: a zero-valued `GitLabClient`, nothing allocated, logged or sent. -/
def Proc.init (fs : List (String × Node)) : Proc :=
  { n := { clients := none }, allocs := 0, fs := fs, log := [], calls := [] }

/-- Runs a sequence of `getClient` calls, each against its own environment. -/
def runGetClients : List (Env × RunnerCredentials) → Proc → Proc
  | [], p => p
  | (env, runner) :: rest, p => runGetClients rest (getClient env runner p).2

/-! ## The exchanges behind each operation -/

/-- The JSON exchange performed by `GetBuild`. -/
def getBuildExchange (env : Env) (config : RunnerConfig) (p : Proc) :
    JSONReply GetBuildResponse × Proc :=
  doJSON env config.toRunnerCredentials "POST" "builds/register.json" 201
    (Request.GetBuildRequest (getRunnerVersion env config) config.Token) .build p

/-- The JSON exchange performed by `VerifyRunner`. -/
def verifyRunnerExchange (env : Env) (runner : RunnerCredentials) (p : Proc) :
    JSONReply Unit × Proc :=
  doJSON env runner "PUT" ("builds/" ++ toString (-1 : Int)) 200
    (Request.VerifyRunnerRequest runner.Token) .none p

/-- The JSON exchange performed by `UpdateBuild`. -/
def updateBuildExchange (env : Env) (config : RunnerConfig) (id : Int) (state : BuildState)
    (trace : String) (p : Proc) : JSONReply Unit × Proc :=
  doJSON env config.toRunnerCredentials "PUT" ("builds/" ++ toString id ++ ".json") 200
    (Request.UpdateBuildRequest (getRunnerVersion env config) config.Token state trace)
    .none p

/-- The raw exchange performed by `UploadRawArtifacts`. -/
def uploadExchange (env : Env) (config : BuildCredentials) (reader : Reader)
    (baseName : String) (p : Proc) : Except String Response × Proc :=
  doRaw env { URL := config.URL, Token := config.Token, TLSCAFile := config.TLSCAFile }
    "POST" ("builds/" ++ toString config.ID ++ "/artifacts")
    (some { fieldName := "file", fileName := baseName, content := reader })
    ("multipart/form-data; boundary=" ++ env.boundary) [("BUILD-TOKEN", config.Token)] p

/-- The raw exchange performed by `DownloadArtifacts`. -/
def downloadExchange (env : Env) (config : BuildCredentials) (p : Proc) :
    Except String Response × Proc :=
  doRaw env { URL := config.URL, Token := config.Token, TLSCAFile := config.TLSCAFile }
    "GET" ("builds/" ++ toString config.ID ++ "/artifacts") none ""
    [("BUILD-TOKEN", config.Token)] p

/-- The severity of the last line of a log. -/
def lastLevel (p : Proc) : Option Level :=
  p.log.getLast?.map (fun e => e.level)

/-! ## Sample environments -/

/-- A coordinator answering every exchange with `status`, a fixed trust chain and a
three-byte body; clients cannot be built for the trust bundle `missing.pem`; the files
`full/out.zip` and `locked/out.zip` take two bytes only, and the latter cannot be removed. -/
def sampleEnv (status : Int) : Env :=
  { NAME := "gitlab-ci-multi-runner", VERSION := "dev", REVISION := "HEAD",
    GOOS := "linux", GOARCH := "amd64",
    GetExecutor := fun _ => none,
    GetShell := fun _ => none,
    newClientErr := fun r =>
      if r.TLSCAFile = "missing.pem" then some "open missing.pem: no such file" else none,
    clientDoJSON := fun _ _ _ _ _ t =>
      { status := status, statusText := "status", certificates := "CHAIN",
        response := t.zero },
    clientDo := fun _ _ _ _ _ _ =>
      .ok { StatusCode := status, Status := "status", Body := { data := [1, 2, 3], err := none } },
    boundary := "xyz",
    openErr := fun _ => none,
    statErr := fun _ => none,
    createErr := fun _ => none,
    removeErr := fun path =>
      if path = "locked/out.zip" then some "remove locked/out.zip: permission denied"
      else none,
    writeLimit := fun path =>
      if path = "full/out.zip" ∨ path = "locked/out.zip" then some 2 else none }

/-- A runner of the sample coordinator. -/
def sampleRunner : RunnerCredentials :=
  { URL := "https://ci.example.com/ci", Token := "t0k3n", TLSCAFile := "" }

/-- A runner whose trust bundle cannot be loaded. -/
def brokenRunner : RunnerCredentials :=
  { URL := "https://ci.example.com/ci", Token := "t0k3n", TLSCAFile := "missing.pem" }

/-- A configuration of the sample runner. -/
def sampleConfig : RunnerConfig :=
  { URL := "https://ci.example.com/ci", Token := "t0k3n", TLSCAFile := "",
    Executor := "shell", Shell := "bash" }

/-- Job credentials on the sample coordinator. -/
def sampleJob : BuildCredentials :=
  { ID := 7, Token := "j0b", URL := "https://ci.example.com/ci", TLSCAFile := "" }

/-- A small file system: an archive, a directory, nothing else. -/
def sampleFS : List (String × Node) :=
  [("artifacts.zip", .file [80, 75]), ("target", .dir)]

/-- A file system with an earlier download in the directory `locked`. -/
def lockedFS : List (String × Node) :=
  [("locked", .dir), ("locked/out.zip", .file [9, 9, 9])]

/-- The sample runner under another token: same endpoint, same trust bundle. -/
def secondRunner : RunnerCredentials :=
  { URL := "https://ci.example.com/ci", Token := "0th3r", TLSCAFile := "" }

/-- A runner of the endpoint `.../ci` whose trust bundle is the file `_ca.pem`. -/
def underscoreBundleRunner : RunnerCredentials :=
  { URL := "https://ci.example.com/ci", Token := "t0k3n", TLSCAFile := "_ca.pem" }

/-- A runner of the endpoint `.../ci_` whose trust bundle is the file `ca.pem`. -/
def underscoreURLRunner : RunnerCredentials :=
  { URL := "https://ci.example.com/ci_", Token := "0th3r", TLSCAFile := "ca.pem" }

/-- Well-formedness of the registry: every cached client was allocated before now, and
clients cached under different keys live at different addresses. -/
def RegistryOK (p : Proc) : Prop :=
  (∀ k c, mapGet p.n.clients k = some c → c.addr < p.allocs) ∧
  (∀ k1 k2 c1 c2, mapGet p.n.clients k1 = some c1 → mapGet p.n.clients k2 = some c2 →
    c1.addr = c2.addr → k1 = k2)

end network

/-! # Shell script generation (`shells/abstract.go`)

The part of `AbstractShell` behind `GeneratePreBuild`. A `ShellWriter` is an interface;
it is modelled by the list of calls made on it, in order. Go strings are indexed by byte:
`goBytes` is the UTF-8 byte view of a string and a slice expression panics when its bounds
exceed the byte length. -/

namespace shells

/-- The UTF-8 encoding of one character, as a list of bytes. -/
def utf8Encode (c : Char) : List Nat :=
  let v := c.toNat
  if v ≤ 0x7f then [v]
  else if v ≤ 0x7ff then [0xc0 + v / 64, 0x80 + v % 64]
  else if v ≤ 0xffff then [0xe0 + v / 4096, 0x80 + (v / 64) % 64, 0x80 + v % 64]
  else [0xf0 + v / 262144, 0x80 + (v / 4096) % 64, 0x80 + (v / 64) % 64, 0x80 + v % 64]

/-- The bytes of a Go string. -/
def goBytes (s : String) : List Nat :=
  s.data.flatMap utf8Encode

/-- The Go builtin `len(s)` on a string: its number of bytes. -/
def len (s : String) : Nat :=
  (goBytes s).length

/-- The slice expression `s[lo:hi]` on a string: the bytes from `lo` up to `hi`, or `none`
when the run-time check `lo <= hi <= len(s)` fails (slice bounds out of range). -/
def goSlice (s : String) (lo hi : Nat) : Option (List Nat) :=
  if lo ≤ hi ∧ hi ≤ len s then some (((goBytes s).drop lo).take (hi - lo)) else none

/-- The run-time error raised by a slice expression out of range. -/
def sliceError : String := "runtime error: slice bounds out of range"

/-- A variable exported to the job (`common.BuildVariable`). -/
structure BuildVariable where
  Key : String
  Value : String
  Public : Bool
  Internal : Bool
  File : Bool
  deriving DecidableEq, Repr

/-- The artifacts of another build (the target of `BuildInfo.Artifacts`). -/
structure ArtifactsInfo where
  Filename : String
  deriving DecidableEq, Repr

/-- Another build this one depends on (`common.BuildInfo`); `Artifacts = none` is nil. -/
structure BuildInfo where
  ID : Int
  Name : String
  Token : String
  Artifacts : Option ArtifactsInfo
  deriving DecidableEq, Repr

/-- The build being scripted (`common.Build`), with the fields abstract.go reads. -/
structure Build where
  ID : Int
  Name : String
  RepoURL : String
  Sha : String
  RefName : String
  Token : String
  TLSCAChain : String
  AllowGitFetch : Bool
  CacheDir : String
  BuildDir : String
  DependsOnBuilds : List BuildInfo
  RunnerURL : String
  deriving DecidableEq, Repr

/-- What the script generator is handed (`common.ShellScriptInfo`). -/
structure ShellScriptInfo where
  Build : Build
  RunnerCommand : String
  deriving DecidableEq, Repr

/-- Options of a cache or artifacts section (`archivingOptions`). -/
structure archivingOptions where
  Key : String
  Untracked : Bool
  Paths : List String
  deriving DecidableEq, Repr

/-- The decoded build options (`shellOptions`); `none` is a nil pointer. -/
structure shellOptions where
  Cache : Option archivingOptions
  Artifacts : Option archivingOptions
  Dependencies : Option (List String)
  deriving DecidableEq, Repr

/-- An argument of a formatted message. -/
inductive Arg where
  | str (s : String)
  | bytes (b : List Nat)
  | int (i : Int)
  deriving DecidableEq, Repr

/-- One call on the `ShellWriter`. -/
inductive Op where
  | Variable (v : BuildVariable)
  | Command (command : String) (arguments : List String)
  | Line (text : String)
  | CheckForErrors
  | IfDirectory (path : String)
  | Else
  | EndIf
  | Cd (path : String)
  | RmDir (path : String)
  | RmFile (path : String)
  | Notice (format : String) (arguments : List Arg)
  | Warning (format : String) (arguments : List Arg)
  | EmptyLine
  deriving DecidableEq, Repr

/-- Everything outside abstract.go that `GeneratePreBuild` consults. -/
structure Env where
  /-- the method `FullProjectDir` of the build -/
  FullProjectDir : Build → String
  /-- the method `GetAllVariables` of the build -/
  GetAllVariables : Build → List BuildVariable
  /-- the method `ExpandValue` of a variable list -/
  ExpandValue : List BuildVariable → String → String
  /-- the options left by `info.Build.Options.Decode(&options)` -/
  Decode : Build → shellOptions
  /-- the method `IsDependent` of `dependencies` -/
  IsDependent : Option (List String) → String → Bool
  /-- the function `getCacheDownloadURL` -/
  getCacheDownloadURL : Build → String → String
  /-- the function `path.Join` -/
  pathJoin : List String → String
  /-- the function `filepath.Rel` -/
  filepathRel : String → String → Except String String

/-- The method `writeExports`. -/
def writeExports (env : Env) (w : List Op) (info : ShellScriptInfo) : List Op :=
  (env.GetAllVariables info.Build).foldl (fun w v => w ++ [.Variable v]) w

/-- The method `writeTLSCAInfo`. -/
def writeTLSCAInfo (w : List Op) (build : Build) (key : String) : List Op :=
  if build.TLSCAChain ≠ "" then
    w ++ [.Variable { Key := key, Value := build.TLSCAChain, Public := true,
                      Internal := true, File := true }]
  else w

/-- The method `writeCloneCmd`. -/
def writeCloneCmd (w : List Op) (build : Build) (projectDir : String) : List Op :=
  w ++ [.Notice "Cloning repository..." [], .RmDir projectDir,
        .Command "git" ["clone", build.RepoURL, projectDir], .Cd projectDir]

/-- The method `writeFetchCmd`. -/
def writeFetchCmd (w : List Op) (build : Build) (projectDir gitDir : String) : List Op :=
  let w1 := w ++ [.IfDirectory gitDir, .Notice "Fetching changes..." [], .Cd projectDir,
    .Command "git" ["clean", "-ffdx"], .Command "git" ["reset", "--hard"],
    .Command "git" ["remote", "set-url", "origin", build.RepoURL],
    .Command "git" ["fetch", "origin", "--prune", "+refs/heads/*:refs/remotes/origin/*",
      "+refs/tags/*:refs/tags/*"],
    .Else]
  writeCloneCmd w1 build projectDir ++ [.EndIf]

/-- The method `writeCheckoutCmd`: the argument `build.Sha[0:8]` is evaluated before
anything is written. -/
def writeCheckoutCmd (w : List Op) (build : Build) : network.Outcome Unit × List Op :=
  match goSlice build.Sha 0 8 with
  | none => (.panic sliceError, w)
  | some short =>
    (.ret (),
      w ++ [.Notice "Checking out %s as %s..." [.bytes short, .str build.RefName],
            .RmFile ".git/index.lock",
            .Command "git" ["checkout", "-q", build.Sha]])

/-- The method `cacheFile`. -/
def cacheFile (env : Env) (build : Build) (userKey : String) : String × String :=
  if build.CacheDir = "" then ("", "")
  else
    let key0 := env.pathJoin [build.Name, build.RefName]
    let key := if userKey ≠ "" then env.ExpandValue (env.GetAllVariables build) userKey
      else key0
    if key = "" then ("", "")
    else
      match env.filepathRel build.BuildDir (env.pathJoin [build.CacheDir, key, "cache.zip"]) with
      | .error _ => ("", "")
      | .ok file => (key, file)

/-- The method `CommandArguments` of `archivingOptions`. -/
def archivingOptions.CommandArguments (o : archivingOptions) : List String :=
  let args := o.Paths.foldl (fun args path => args ++ ["--path", path]) []
  if o.Untracked then args ++ ["--untracked"] else args

/-- The method `cacheExtractor`. -/
def cacheExtractor (env : Env) (w : List Op) (options : Option archivingOptions)
    (info : ShellScriptInfo) : List Op :=
  match options with
  | none => w
  | some options =>
    if info.RunnerCommand = "" then
      w ++ [.Warning "The cache is not supported in this executor." []]
    else if options.CommandArguments.length = 0 then w
    else
      let kf := cacheFile env info.Build options.Key
      if kf.1 = "" then w
      else
        let args := ["cache-extractor", "--file", kf.2]
        let url := env.getCacheDownloadURL info.Build kf.1
        let args1 := if url ≠ "" then args ++ ["--url", url] else args
        w ++ [.Notice "Checking cache for %s..." [.str kf.1],
              .Command info.RunnerCommand args1]

/-- The method `downloadArtifacts`. -/
def downloadArtifacts (w : List Op) (build : BuildInfo) (info : ShellScriptInfo) : List Op :=
  if info.RunnerCommand = "" then
    w ++ [.Warning "The artifacts downloading is not supported in this executor." []]
  else
    w ++ [.Notice "Downloading artifacts for %s (%d)..." [.str build.Name, .int build.ID],
          .Command info.RunnerCommand
            ["artifacts-downloader", "--url", info.Build.RunnerURL, "--token", build.Token,
             "--id", toString build.ID]]

/-- The method `downloadAllArtifacts`. -/
def downloadAllArtifacts (env : Env) (w : List Op) (dependencies : Option (List String))
    (info : ShellScriptInfo) : List Op :=
  info.Build.DependsOnBuilds.foldl
    (fun w otherBuild =>
      match otherBuild.Artifacts with
      | none => w
      | some artifacts =>
        if artifacts.Filename = "" then w
        else if !env.IsDependent dependencies otherBuild.Name then w
        else downloadArtifacts w otherBuild info)
    w

/-- The calls `GeneratePreBuild` makes on the writer before it reaches `writeCheckoutCmd`. -/
def preCheckout (env : Env) (w : List Op) (info : ShellScriptInfo) : List Op :=
  let w1 := writeExports env w info
  let build := info.Build
  let projectDir := env.FullProjectDir build
  let gitDir := env.pathJoin [env.FullProjectDir build, ".git"]
  let w2 := writeTLSCAInfo w1 info.Build "GIT_SSL_CAINFO"
  let w3 := writeTLSCAInfo w2 info.Build "CI_SERVER_TLS_CA_FILE"
  if build.AllowGitFetch then writeFetchCmd w3 build projectDir gitDir
  else writeCloneCmd w3 build projectDir

/-- The method `GeneratePreBuild`. -/
def GeneratePreBuild (env : Env) (w : List Op) (info : ShellScriptInfo) :
    network.Outcome Unit × List Op :=
  let w4 := preCheckout env w info
  match writeCheckoutCmd w4 info.Build with
  | (.panic msg, w5) => (.panic msg, w5)
  | (.ret _, w5) =>
    let options := env.Decode info.Build
    let w6 := cacheExtractor env w5 options.Cache info
    (.ret (), downloadAllArtifacts env w6 options.Dependencies info)

/-- The three calls of `writeCheckoutCmd` for a build. -/
def checkoutOps (build : Build) : List Op :=
  [.Notice "Checking out %s as %s..." [.bytes ((goBytes build.Sha).take 8), .str build.RefName],
   .RmFile ".git/index.lock",
   .Command "git" ["checkout", "-q", build.Sha]]

/-- A generator environment with plain path handling and no options. -/
def plainEnv : Env :=
  { FullProjectDir := fun build => build.BuildDir,
    GetAllVariables := fun build =>
      [{ Key := "CI_BUILD_REF", Value := build.Sha, Public := true, Internal := true,
         File := false }],
    ExpandValue := fun _ value => value,
    Decode := fun _ => { Cache := none, Artifacts := none, Dependencies := none },
    IsDependent := fun _ _ => true,
    getCacheDownloadURL := fun _ _ => "",
    pathJoin := fun parts => "/".intercalate parts,
    filepathRel := fun _ target => .ok target }

/-- A build with a full commit id. -/
def sampleBuild : Build :=
  { ID := 7, Name := "test", RepoURL := "https://ci.example.com/group/project.git",
    Sha := "0123456789abcdef0123456789abcdef01234567", RefName := "master", Token := "j0b",
    TLSCAChain := "", AllowGitFetch := false, CacheDir := "", BuildDir := "/builds/project",
    DependsOnBuilds := [], RunnerURL := "https://ci.example.com/ci" }

end shells

namespace network

/-! ## Theorems -/

/-- C1: `GetBuild` classifies every result of its JSON exchange. Status 201 gives the
decoded job with ok = true and its `TLSCAChain` is the trust-chain value of the exchange;
204, 404 and every status outside 201, 403 and the sentinel give no job with ok = true and
no error line in the log; 403 and the sentinel give no job with ok = false. A job is
returned exactly when the status is 201. -/
theorem GetBuild_classifies (env : Env) (config : RunnerConfig) (p : Proc) :
    ((getBuildExchange env config p).1.status = 201 →
      (GetBuild env config p).1 =
        (some { (getBuildExchange env config p).1.response with
                  TLSCAChain := (getBuildExchange env config p).1.certificates }, true) ∧
      ((GetBuild env config p).1.1.map (fun job => job.TLSCAChain)) =
        some (getBuildExchange env config p).1.certificates) ∧
    ((getBuildExchange env config p).1.status = 204 ∨
        (getBuildExchange env config p).1.status = 404 →
      (GetBuild env config p).1 = (none, true) ∧
      lastLevel (GetBuild env config p).2 = some .debug) ∧
    ((getBuildExchange env config p).1.status ≠ 201 ∧
        (getBuildExchange env config p).1.status ≠ 403 ∧
        (getBuildExchange env config p).1.status ≠ clientError →
      (GetBuild env config p).1 = (none, true) ∧
      lastLevel (GetBuild env config p).2 ≠ some .error) ∧
    ((getBuildExchange env config p).1.status = 403 ∨
        (getBuildExchange env config p).1.status = clientError →
      (GetBuild env config p).1 = (none, false)) ∧
    ((GetBuild env config p).1.1.isSome = true ↔
      (getBuildExchange env config p).1.status = 201) := by
  simp only [getBuildExchange, GetBuild, lastLevel, logln, clientError]
  generalize (doJSON env config.toRunnerCredentials "POST" "builds/register.json" 201
    (Request.GetBuildRequest (getRunnerVersion env config) config.Token) .build p) = r
  refine ⟨?_, ?_, ?_, ?_, ?_⟩
  · intro h
    simp [h]
  · intro h
    rcases h with h | h <;> simp [h]
  · rintro ⟨h1, h2, h3⟩
    by_cases h4 : r.1.status = 204 ∨ r.1.status = 404
    · simp [h1, h2, h4]
    · simp [h1, h2, h3, h4]
  · intro h
    rcases h with h | h <;> simp [h]
  · constructor
    · intro h
      by_contra hne
      simp only [hne, if_false] at h
      split_ifs at h <;> simp at h
    · intro h
      simp [h]

/-- C2: `UpdateBuild` returns `UpdateSucceeded` exactly for status 200, `UpdateAbort`
exactly for 404, 403 and the transport-error sentinel, and `UpdateFailed` for every other
status (and only for those). -/
theorem UpdateBuild_classifies (env : Env) (config : RunnerConfig) (id : Int)
    (state : BuildState) (trace : String) (p : Proc) :
    ((UpdateBuild env config id state trace p).1 = .UpdateSucceeded ↔
      (updateBuildExchange env config id state trace p).1.status = 200) ∧
    ((UpdateBuild env config id state trace p).1 = .UpdateAbort ↔
      (updateBuildExchange env config id state trace p).1.status = 404 ∨
      (updateBuildExchange env config id state trace p).1.status = 403 ∨
      (updateBuildExchange env config id state trace p).1.status = clientError) ∧
    ((UpdateBuild env config id state trace p).1 = .UpdateFailed ↔
      (updateBuildExchange env config id state trace p).1.status ≠ 200 ∧
      (updateBuildExchange env config id state trace p).1.status ≠ 404 ∧
      (updateBuildExchange env config id state trace p).1.status ≠ 403 ∧
      (updateBuildExchange env config id state trace p).1.status ≠ clientError) := by
  simp only [updateBuildExchange, UpdateBuild, clientError]
  generalize (doJSON env config.toRunnerCredentials "PUT" ("builds/" ++ toString id ++ ".json")
    200 (Request.UpdateBuildRequest (getRunnerVersion env config) config.Token state trace)
    .none p) = r
  by_cases h1 : r.1.status = 200
  · simp [h1]
  by_cases h2 : r.1.status = 404
  · simp [h2]
  by_cases h3 : r.1.status = 403
  · simp [h3]
  by_cases h4 : r.1.status = -100
  · simp [h4]
  simp [h1, h2, h3, h4]

/-- C3: for every genuine status code (anything but the transport-error sentinel) answered
to the probe of `VerifyRunner`, a PUT against the fabricated build id -1, the result is
false exactly when the status is 403; 404 and every other status give true. -/
theorem VerifyRunner_failsOpen (env : Env) (runner : RunnerCredentials) (p : Proc)
    (h : (verifyRunnerExchange env runner p).1.status ≠ clientError) :
    ((VerifyRunner env runner p).1 = false ↔
      (verifyRunnerExchange env runner p).1.status = 403) ∧
    ((verifyRunnerExchange env runner p).1.status = 404 →
      (VerifyRunner env runner p).1 = true) ∧
    ((verifyRunnerExchange env runner p).1.status ≠ 403 →
      (VerifyRunner env runner p).1 = true) ∧
    verifyRunnerExchange env runner p =
      doJSON env runner "PUT" "builds/-1" 200 (Request.VerifyRunnerRequest runner.Token)
        .none p := by
  have huri : "builds/" ++ toString (-1 : Int) = "builds/-1" := by decide
  refine ⟨?_, ?_, ?_, ?_⟩
  · revert h
    simp only [verifyRunnerExchange, VerifyRunner, clientError]
    generalize (doJSON env runner "PUT" ("builds/" ++ toString (-1 : Int)) 200
      (Request.VerifyRunnerRequest runner.Token) .none p) = r
    intro h
    by_cases h1 : r.1.status = 404
    · simp [h1]
    by_cases h2 : r.1.status = 403
    · simp [h2]
    simp [h, h1, h2]
  · revert h
    simp only [verifyRunnerExchange, VerifyRunner, clientError]
    generalize (doJSON env runner "PUT" ("builds/" ++ toString (-1 : Int)) 200
      (Request.VerifyRunnerRequest runner.Token) .none p) = r
    intro _ h1
    simp [h1]
  · revert h
    simp only [verifyRunnerExchange, VerifyRunner, clientError]
    generalize (doJSON env runner "PUT" ("builds/" ++ toString (-1 : Int)) 200
      (Request.VerifyRunnerRequest runner.Token) .none p) = r
    intro h h2
    by_cases h1 : r.1.status = 404
    · simp [h1]
    simp [h, h1, h2]
  · simp only [verifyRunnerExchange, huri]

/-- Witness for C3: the sample coordinator answers 404 to the probe. -/
theorem VerifyRunner_failsOpen_witness :
    (verifyRunnerExchange (sampleEnv 404) sampleRunner (Proc.init [])).1.status ≠ clientError ∧
    (((VerifyRunner (sampleEnv 404) sampleRunner (Proc.init [])).1 = false ↔
      (verifyRunnerExchange (sampleEnv 404) sampleRunner (Proc.init [])).1.status = 403) ∧
    ((verifyRunnerExchange (sampleEnv 404) sampleRunner (Proc.init [])).1.status = 404 →
      (VerifyRunner (sampleEnv 404) sampleRunner (Proc.init [])).1 = true) ∧
    ((verifyRunnerExchange (sampleEnv 404) sampleRunner (Proc.init [])).1.status ≠ 403 →
      (VerifyRunner (sampleEnv 404) sampleRunner (Proc.init [])).1 = true) ∧
    verifyRunnerExchange (sampleEnv 404) sampleRunner (Proc.init []) =
      doJSON (sampleEnv 404) sampleRunner "PUT" "builds/-1" 200
        (Request.VerifyRunnerRequest sampleRunner.Token) .none (Proc.init [])) :=
  ⟨by decide, VerifyRunner_failsOpen (sampleEnv 404) sampleRunner (Proc.init []) (by decide)⟩

/-- C4, as stated, fails: an exchange that yields the transport-error sentinel and one that
yields a genuine 403 make `VerifyRunner` return the same value. -/
theorem VerifyRunner_sentinel_equals_removed :
    (verifyRunnerExchange (sampleEnv clientError) sampleRunner (Proc.init [])).1.status =
      clientError ∧
    (verifyRunnerExchange (sampleEnv 403) sampleRunner (Proc.init [])).1.status = 403 ∧
    (VerifyRunner (sampleEnv clientError) sampleRunner (Proc.init [])).1 =
      (VerifyRunner (sampleEnv 403) sampleRunner (Proc.init [])).1 := by
  decide

/-- C4, amended: when the exchange of `VerifyRunner` yields the transport-error sentinel
the result is false, the value also returned for a genuine 403; the two cases are told
apart only by the log line, `error` with the status text against `is removed`. -/
theorem VerifyRunner_sentinel_logged (env1 env2 : Env) (runner : RunnerCredentials)
    (p : Proc)
    (h1 : (verifyRunnerExchange env1 runner p).1.status = clientError)
    (h2 : (verifyRunnerExchange env2 runner p).1.status = 403) :
    (VerifyRunner env1 runner p).1 = false ∧
    (VerifyRunner env2 runner p).1 = false ∧
    (VerifyRunner env1 runner p).2.log =
      (verifyRunnerExchange env1 runner p).2.log ++
        [{ level := .error, status := some (verifyRunnerExchange env1 runner p).1.statusText,
           args := ["Verifying runner...", "error"] }] ∧
    (VerifyRunner env2 runner p).2.log =
      (verifyRunnerExchange env2 runner p).2.log ++
        [{ level := .error, status := none, args := ["Verifying runner...", "is removed"] }] := by
  revert h1 h2
  simp only [verifyRunnerExchange, VerifyRunner, clientError, logln]
  generalize (doJSON env1 runner "PUT" ("builds/" ++ toString (-1 : Int)) 200
    (Request.VerifyRunnerRequest runner.Token) .none p) = r1
  generalize (doJSON env2 runner "PUT" ("builds/" ++ toString (-1 : Int)) 200
    (Request.VerifyRunnerRequest runner.Token) .none p) = r2
  intro h1 h2
  simp [h1, h2]

/-- Witness for the amended C4: an unreachable coordinator against one answering 403. -/
theorem VerifyRunner_sentinel_logged_witness :
    (VerifyRunner (sampleEnv clientError) sampleRunner (Proc.init [])).1 = false ∧
    (VerifyRunner (sampleEnv 403) sampleRunner (Proc.init [])).1 = false ∧
    (VerifyRunner (sampleEnv clientError) sampleRunner (Proc.init [])).2.log =
      (verifyRunnerExchange (sampleEnv clientError) sampleRunner (Proc.init [])).2.log ++
        [{ level := .error,
           status := some (verifyRunnerExchange (sampleEnv clientError) sampleRunner
             (Proc.init [])).1.statusText,
           args := ["Verifying runner...", "error"] }] ∧
    (VerifyRunner (sampleEnv 403) sampleRunner (Proc.init [])).2.log =
      (verifyRunnerExchange (sampleEnv 403) sampleRunner (Proc.init [])).2.log ++
        [{ level := .error, status := none, args := ["Verifying runner...", "is removed"] }] :=
  VerifyRunner_sentinel_logged (sampleEnv clientError) (sampleEnv 403) sampleRunner
    (Proc.init []) (by decide) (by decide)

/-- C5: `UploadRawArtifacts` returns `UploadFailed` when the raw exchange fails at the
transport level; otherwise 201 gives `UploadSucceeded`, 403 `UploadForbidden`, 413
`UploadTooLarge` and every other status `UploadFailed`. -/
theorem UploadRawArtifacts_classifies (env : Env) (config : BuildCredentials)
    (reader : Reader) (baseName : String) (p : Proc) :
    (∀ e, (uploadExchange env config reader baseName p).1 = .error e →
      (UploadRawArtifacts env config reader baseName p).1 = .UploadFailed) ∧
    (∀ res, (uploadExchange env config reader baseName p).1 = .ok res →
      (res.StatusCode = 201 →
        (UploadRawArtifacts env config reader baseName p).1 = .UploadSucceeded) ∧
      (res.StatusCode = 403 →
        (UploadRawArtifacts env config reader baseName p).1 = .UploadForbidden) ∧
      (res.StatusCode = 413 →
        (UploadRawArtifacts env config reader baseName p).1 = .UploadTooLarge) ∧
      (res.StatusCode ≠ 201 ∧ res.StatusCode ≠ 403 ∧ res.StatusCode ≠ 413 →
        (UploadRawArtifacts env config reader baseName p).1 = .UploadFailed)) := by
  simp only [uploadExchange, UploadRawArtifacts]
  generalize (doRaw env _ "POST" _ _ _ _ p) = r
  refine ⟨?_, ?_⟩
  · intro e he
    simp [he]
  · intro res hres
    refine ⟨?_, ?_, ?_, ?_⟩
    · intro h
      simp [hres, h]
    · intro h
      simp [hres, h]
    · intro h
      simp [hres, h]
    · rintro ⟨h1, h2, h3⟩
      simp [hres, h1, h2, h3]

/-- A node just put at a path is the node found there. -/
theorem fsGet_fsSet (fs : List (String × Node)) (path : String) (node : Node) :
    fsGet (fsSet fs path node) path = some node := by
  simp [fsGet, fsSet, List.lookup]

/-- Filtering a key out of an association list leaves nothing to look up under it. -/
theorem lookup_filter_ne {β : Type} (kvs : List (String × β)) (key : String) :
    (kvs.filter (fun kv => kv.1 != key)).lookup key = none := by
  induction kvs with
  | nil => rfl
  | cons kv rest ih =>
    obtain ⟨k, v⟩ := kv
    rw [List.filter_cons]
    by_cases hk : k = key
    · have h1 : ((k, v).1 != key) = false := by simp [hk]
      rw [h1]
      exact ih
    · have h1 : ((k, v).1 != key) = true := by simp [hk]
      have hb : (key == k) = false := by
        simp only [beq_eq_false_iff_ne, ne_eq]
        exact fun h => hk h.symm
      rw [h1, if_pos rfl, List.lookup_cons, hb]
      exact ih

/-- Nothing is found at a path whose removal went through. -/
theorem fsGet_osRemove (env : Env) (fs : List (String × Node)) (path : String)
    (h : env.removeErr path = none) : fsGet (osRemove env fs path) path = none := by
  simp only [fsGet, osRemove, h]
  exact lookup_filter_ne fs path

/-- A removal the system refuses leaves the file system as it was. -/
theorem osRemove_refused (env : Env) (fs : List (String × Node)) (path e : String)
    (h : env.removeErr path = some e) : osRemove env fs path = fs := by
  simp only [osRemove, h]

/-- A copy that reports no error has written the whole source. -/
theorem ioCopy_complete (limit : Option Nat) (src : Reader)
    (h : (ioCopy limit src).2 = none) : (ioCopy limit src).1 = src.data := by
  unfold ioCopy at h ⊢
  cases limit with
  | none => rfl
  | some k =>
    by_cases hk : k < src.data.length
    · simp [hk] at h
    · simp [hk]

/-- C6, amended: `DownloadArtifacts` classifies every outcome of its GET exchange. A
transport error and every status other than 200, 403 and 404 give `DownloadFailed`, 403
gives `DownloadForbidden`, 404 gives `DownloadNotFound`. On status 200 with the target
created: if the whole body is copied the result is `DownloadSucceeded` and the requested
path holds the response body; if the copy fails the result is `DownloadFailed` and the
target is removed with the error of `os.Remove` dropped, so nothing remains at the
requested path when the removal goes through, and the bytes written so far stay there when
the system refuses it. -/
theorem DownloadArtifacts_classifies (env : Env) (config : BuildCredentials)
    (artifactsFile : String) (p : Proc) :
    (∀ e, (downloadExchange env config p).1 = .error e →
      (DownloadArtifacts env config artifactsFile p).1 = .ret .DownloadFailed) ∧
    (∀ res, (downloadExchange env config p).1 = .ok res →
      (res.StatusCode = 403 →
        (DownloadArtifacts env config artifactsFile p).1 = .ret .DownloadForbidden) ∧
      (res.StatusCode = 404 →
        (DownloadArtifacts env config artifactsFile p).1 = .ret .DownloadNotFound) ∧
      (res.StatusCode ≠ 200 ∧ res.StatusCode ≠ 403 ∧ res.StatusCode ≠ 404 →
        (DownloadArtifacts env config artifactsFile p).1 = .ret .DownloadFailed) ∧
      (res.StatusCode = 200 →
        ∀ fs1, osCreate env (downloadExchange env config p).2.fs artifactsFile = .ok fs1 →
          ((ioCopy (env.writeLimit artifactsFile) res.Body).2 = none →
            (DownloadArtifacts env config artifactsFile p).1 = .ret .DownloadSucceeded ∧
            fsGet (DownloadArtifacts env config artifactsFile p).2.fs artifactsFile =
              some (.file res.Body.data)) ∧
          (∀ e, (ioCopy (env.writeLimit artifactsFile) res.Body).2 = some e →
            (DownloadArtifacts env config artifactsFile p).1 = .ret .DownloadFailed ∧
            (env.removeErr artifactsFile = none →
              fsGet (DownloadArtifacts env config artifactsFile p).2.fs artifactsFile =
                none) ∧
            (∀ e1, env.removeErr artifactsFile = some e1 →
              fsGet (DownloadArtifacts env config artifactsFile p).2.fs artifactsFile =
                some (.file (ioCopy (env.writeLimit artifactsFile) res.Body).1))))) := by
  simp only [downloadExchange, DownloadArtifacts]
  generalize (doRaw env _ "GET" _ _ _ _ p) = r
  refine ⟨?_, ?_⟩
  · intro e he
    simp [he]
  · intro res hres
    refine ⟨?_, ?_, ?_, ?_⟩
    · intro h
      simp [hres, h]
    · intro h
      simp [hres, h]
    · rintro ⟨h1, h2, h3⟩
      simp [hres, h1, h2, h3]
    · intro h fs1 hfs
      refine ⟨?_, ?_⟩
      · intro hc
        have hd := ioCopy_complete (env.writeLimit artifactsFile) res.Body hc
        simp [hres, h, hfs, hc, logln, fsGet_fsSet, hd]
      · intro e hc
        refine ⟨?_, ?_, ?_⟩
        · simp [hres, h, hfs, hc]
        · intro hrm
          simp [hres, h, hfs, hc, logln, fsGet_osRemove, hrm]
        · intro e1 hrm
          simp [hres, h, hfs, hc, logln, osRemove_refused _ _ _ e1 hrm, fsGet_fsSet]

/-- C6, as stated, fails: the coordinator answers 200, the target is created over an earlier
file, the copy stops after two bytes, the removal is refused, and the partial file stays at
the target path although the result is `DownloadFailed`. -/
theorem DownloadArtifacts_partial_file_remains :
    (downloadExchange (sampleEnv 200) sampleJob (Proc.init lockedFS)).1 =
      .ok { StatusCode := 200, Status := "status", Body := { data := [1, 2, 3], err := none } } ∧
    osCreate (sampleEnv 200) lockedFS "locked/out.zip" =
      .ok (fsSet lockedFS "locked/out.zip" (.file [])) ∧
    (ioCopy ((sampleEnv 200).writeLimit "locked/out.zip") { data := [1, 2, 3], err := none }).2 =
      some "short write" ∧
    (DownloadArtifacts (sampleEnv 200) sampleJob "locked/out.zip" (Proc.init lockedFS)).1 =
      .ret .DownloadFailed ∧
    fsGet (DownloadArtifacts (sampleEnv 200) sampleJob "locked/out.zip"
      (Proc.init lockedFS)).2.fs "locked/out.zip" = some (.file [1, 2]) ∧
    fsGet (DownloadArtifacts (sampleEnv 200) sampleJob "locked/out.zip"
      (Proc.init lockedFS)).2.fs "locked/out.zip" ≠ none :=
  ⟨rfl, rfl, rfl, rfl, rfl, by decide⟩

/-- When the coordinator answers 200 and the target cannot be created, `DownloadArtifacts`
does not return: it dereferences the nil file. -/
theorem DownloadArtifacts_create_failure (env : Env) (config : BuildCredentials)
    (artifactsFile : String) (p : Proc) (res : Response) (e : String)
    (hres : (downloadExchange env config p).1 = .ok res) (h200 : res.StatusCode = 200)
    (hcreate : osCreate env (downloadExchange env config p).2.fs artifactsFile = .error e) :
    (DownloadArtifacts env config artifactsFile p).1 =
      .panic "runtime error: invalid memory address or nil pointer dereference" := by
  revert hres hcreate
  simp only [downloadExchange, DownloadArtifacts]
  generalize (doRaw env _ "GET" _ _ _ _ p) = r
  intro hres hcreate
  simp [hres, h200, hcreate]

/-- C7, the code at the failing input: the coordinator answers 200 and the target path is a
directory; `DownloadArtifacts` panics instead of returning `DownloadFailed`. -/
theorem DownloadArtifacts_directory_target_panics :
    (downloadExchange (sampleEnv 200) sampleJob (Proc.init sampleFS)).1 =
      .ok { StatusCode := 200, Status := "status", Body := { data := [1, 2, 3], err := none } } ∧
    fsGet sampleFS "target" = some .dir ∧
    (DownloadArtifacts (sampleEnv 200) sampleJob "target" (Proc.init sampleFS)).1 =
      .panic "runtime error: invalid memory address or nil pointer dereference" ∧
    (DownloadArtifacts (sampleEnv 200) sampleJob "target" (Proc.init sampleFS)).1 ≠
      .ret .DownloadFailed :=
  ⟨rfl, rfl, rfl, by decide⟩

/-- C8: `UploadArtifacts` rejects local precondition violations before any network call.
A path that does not exist or cannot be opened, cannot be stat'ed, or names a directory
gives `UploadFailed` with no exchange performed and the client cache untouched; for every
other path the call is `UploadRawArtifacts` on the opened file under the base name of the
path. -/
theorem UploadArtifacts_preconditions (env : Env) (config : BuildCredentials)
    (artifactsFile : String) (p : Proc) :
    (fsGet p.fs artifactsFile = none → ∃ e, osOpen env p.fs artifactsFile = .error e) ∧
    (((∃ e, osOpen env p.fs artifactsFile = .error e) ∨
        (∃ e, env.statErr artifactsFile = some e) ∨
        osOpen env p.fs artifactsFile = .ok .dir) →
      (UploadArtifacts env config artifactsFile p).1 = .UploadFailed ∧
      (UploadArtifacts env config artifactsFile p).2.calls = p.calls ∧
      (UploadArtifacts env config artifactsFile p).2.n = p.n ∧
      (UploadArtifacts env config artifactsFile p).2.allocs = p.allocs) ∧
    (∀ node, osOpen env p.fs artifactsFile = .ok node → env.statErr artifactsFile = none →
      node ≠ .dir →
      UploadArtifacts env config artifactsFile p =
        UploadRawArtifacts env config (nodeReader node) (filepathBase artifactsFile) p) := by
  refine ⟨?_, ?_, ?_⟩
  · intro h
    simp [osOpen, h]
  · intro h
    unfold UploadArtifacts
    rcases h with ⟨e, he⟩ | ⟨e, he⟩ | he
    · simp [he, logln]
    · cases hopen : osOpen env p.fs artifactsFile with
      | error e1 => simp [logln]
      | ok node => simp [he, logln]
    · cases hstat : env.statErr artifactsFile with
      | none => simp [he, logln]
      | some e => simp [he, logln]
  · intro node hopen hstat hdir
    unfold UploadArtifacts
    simp [hopen, hstat, hdir]

/-! ## The client registry -/

/-- The binding just written is the one read back. -/
theorem lookup_mapSet_self (kvs : List (String × client)) (key : String) (c : client) :
    (mapSet kvs key c).lookup key = some c := by
  simp [mapSet, List.lookup]

/-- Filtering one key out does not disturb the lookup of another. -/
theorem lookup_filter_other {β : Type} (kvs : List (String × β)) (key k : String)
    (hne : k ≠ key) : (kvs.filter (fun kv => kv.1 != key)).lookup k = kvs.lookup k := by
  induction kvs with
  | nil => rfl
  | cons kv rest ih =>
    obtain ⟨k1, v⟩ := kv
    rw [List.filter_cons]
    by_cases hk : k1 = key
    · have h1 : ((k1, v).1 != key) = false := by simp [hk]
      have hb : (k == k1) = false := by
        simp only [beq_eq_false_iff_ne, ne_eq]
        exact fun h => hne (h.trans hk)
      rw [h1, List.lookup_cons, hb]
      exact ih
    · have h1 : ((k1, v).1 != key) = true := by simp [hk]
      rw [h1, if_pos rfl, List.lookup_cons, List.lookup_cons, ih]

/-- Writing one key does not disturb the binding of another. -/
theorem lookup_mapSet_other (kvs : List (String × client)) (key k : String) (c : client)
    (hne : k ≠ key) : (mapSet kvs key c).lookup k = kvs.lookup k := by
  have hb : (k == key) = false := by
    simp only [beq_eq_false_iff_ne, ne_eq]
    exact hne
  rw [mapSet, List.lookup_cons, hb]
  exact lookup_filter_other kvs key k hne

/-- A client read from the cache sits in a non-nil map. -/
theorem mapGet_some (m : Option (List (String × client))) (key : String) (c : client)
    (h : mapGet m key = some c) : ∃ kvs, m = some kvs ∧ kvs.lookup key = some c := by
  cases m with
  | none => simp [mapGet] at h
  | some kvs => exact ⟨kvs, rfl, h⟩

/-- Cache hit: a cached client is returned and the process state is left as it was. -/
theorem getClient_cached (env : Env) (runner : RunnerCredentials) (p : Proc) (c : client)
    (h : mapGet p.n.clients (clientKey runner) = some c) :
    getClient env runner p = (.ok c, p) := by
  obtain ⟨kvs, hm, hl⟩ := mapGet_some _ _ _ h
  obtain ⟨⟨m⟩, allocs, fs, log, calls⟩ := p
  simp only at hm
  subst hm
  simp [getClient, hl]

/-- A client handed out by `getClient` is afterwards cached under the key of the runner. -/
theorem getClient_ok_cached (env : Env) (runner : RunnerCredentials) (p p1 : Proc)
    (c : client) (h : getClient env runner p = (.ok c, p1)) :
    mapGet p1.n.clients (clientKey runner) = some c := by
  unfold getClient at h
  simp only at h
  split at h
  · next c1 hl =>
    simp only [Prod.mk.injEq, Except.ok.injEq] at h
    obtain ⟨hc, hp⟩ := h
    subst hc hp
    simpa [mapGet] using hl
  · next hl =>
    split at h
    · simp at h
    · next c1 hn =>
      simp only [Prod.mk.injEq, Except.ok.injEq] at h
      obtain ⟨hc, hp⟩ := h
      subst hc hp
      simp [mapGet, lookup_mapSet_self]

/-- An entry of the cache is still there, unchanged, after any `getClient` call. -/
theorem getClient_keeps (env : Env) (runner : RunnerCredentials) (p : Proc) (k : String)
    (c : client) (h : mapGet p.n.clients k = some c) :
    mapGet (getClient env runner p).2.n.clients k = some c := by
  obtain ⟨kvs, hm, hl⟩ := mapGet_some _ _ _ h
  unfold getClient
  simp only [hm]
  split
  · simpa [mapGet] using hl
  · next hnone =>
    split
    · simpa [mapGet] using hl
    · have hne : k ≠ clientKey runner := by
        intro hk
        rw [hk, hnone] at hl
        exact Option.noConfusion hl
      simp only [mapGet]
      rw [lookup_mapSet_other kvs (clientKey runner) k _ hne]
      exact hl

/-- An entry of the cache survives every sequence of `getClient` calls. -/
theorem runGetClients_keeps (calls : List (Env × RunnerCredentials)) (p : Proc) (k : String)
    (c : client) (h : mapGet p.n.clients k = some c) :
    mapGet (runGetClients calls p).n.clients k = some c := by
  induction calls generalizing p with
  | nil => exact h
  | cons call rest ih =>
    obtain ⟨env, runner⟩ := call
    exact ih _ (getClient_keeps env runner p k c h)

/-- A `getClient` call that fails leaves every cache lookup, the allocation counter and the
record of exchanges as they were. -/
theorem getClient_error_state (env : Env) (runner : RunnerCredentials) (p p1 : Proc)
    (e : String) (h : getClient env runner p = (.error e, p1)) :
    (∀ k, mapGet p1.n.clients k = mapGet p.n.clients k) ∧ p1.allocs = p.allocs ∧
      p1.calls = p.calls ∧ p1.fs = p.fs := by
  unfold getClient at h
  simp only at h
  split at h
  · simp at h
  · split at h
    · simp only [Prod.mk.injEq, Except.error.injEq] at h
      obtain ⟨_, hp⟩ := h
      subst hp
      refine ⟨?_, rfl, rfl, rfl⟩
      intro k
      cases hm : p.n.clients with
      | none => simp [mapGet]
      | some kvs => simp [mapGet]
    · simp at h

/-- What one `getClient` call can add: every entry afterwards was there before, or is the
entry of the runner's key holding a client allocated by this call. -/
theorem getClient_step (env : Env) (runner : RunnerCredentials) (p : Proc) :
    p.allocs ≤ (getClient env runner p).2.allocs ∧
    ∀ k c, mapGet (getClient env runner p).2.n.clients k = some c →
      mapGet p.n.clients k = some c ∨
      (k = clientKey runner ∧ c.addr = p.allocs ∧
        (getClient env runner p).2.allocs = p.allocs + 1) := by
  have hold : ∀ k c, mapGet (some (match p.n.clients with
      | none => []
      | some kvs => kvs)) k = some c → mapGet p.n.clients k = some c := by
    intro k c h
    cases hm : p.n.clients with
    | none => simp [hm, mapGet] at h
    | some kvs => simpa [hm, mapGet] using h
  unfold getClient
  simp only
  split
  · exact ⟨le_refl _, fun k c h => Or.inl (hold k c h)⟩
  · split
    · exact ⟨le_refl _, fun k c h => Or.inl (hold k c h)⟩
    · next c1 hn =>
      refine ⟨Nat.le_succ _, ?_⟩
      intro k c h
      by_cases hk : k = clientKey runner
      · right
        subst hk
        simp only [mapGet, lookup_mapSet_self, Option.some.injEq] at h
        subst h
        unfold newClient at hn
        split at hn
        · simp at hn
        · simp only [Except.ok.injEq] at hn
          subst hn
          exact ⟨rfl, rfl, rfl⟩
      · left
        simp only [mapGet] at h
        rw [lookup_mapSet_other _ _ _ _ hk] at h
        exact hold k c h

/-- The initial registry is well formed. -/
theorem RegistryOK_init (fs : List (String × Node)) : RegistryOK (Proc.init fs) := by
  constructor
  · intro k c h
    simp [Proc.init, mapGet] at h
  · intro k1 k2 c1 c2 h
    simp [Proc.init, mapGet] at h

/-- One `getClient` call keeps the registry well formed. -/
theorem RegistryOK_getClient (env : Env) (runner : RunnerCredentials) (p : Proc)
    (h : RegistryOK p) : RegistryOK (getClient env runner p).2 := by
  obtain ⟨hle, hstep⟩ := getClient_step env runner p
  obtain ⟨hlt, hinj⟩ := h
  constructor
  · intro k c hk
    rcases hstep k c hk with hold | ⟨_, haddr, hall⟩
    · exact lt_of_lt_of_le (hlt k c hold) hle
    · omega
  · intro k1 k2 c1 c2 h1 h2 haddr
    rcases hstep k1 c1 h1 with hold1 | ⟨hk1, ha1, _⟩
    · rcases hstep k2 c2 h2 with hold2 | ⟨_, ha2, _⟩
      · exact hinj k1 k2 c1 c2 hold1 hold2 haddr
      · have := hlt k1 c1 hold1
        omega
    · rcases hstep k2 c2 h2 with hold2 | ⟨hk2, _, _⟩
      · have := hlt k2 c2 hold2
        omega
      · rw [hk1, hk2]

/-- Every state reached by `getClient` calls from the initial one is well formed. -/
theorem RegistryOK_run (calls : List (Env × RunnerCredentials)) (p : Proc)
    (h : RegistryOK p) : RegistryOK (runGetClients calls p) := by
  induction calls generalizing p with
  | nil => exact h
  | cons call rest ih =>
    obtain ⟨env, runner⟩ := call
    exact ih _ (RegistryOK_getClient env runner p h)

/-- In every reachable state, runners whose cache keys differ receive different client
instances. -/
theorem getClient_separates_keys (calls : List (Env × RunnerCredentials))
    (fs : List (String × Node)) (env1 env2 : Env) (r1 r2 : RunnerCredentials)
    (c1 c2 : client) (p1 p2 : Proc) (hkey : clientKey r1 ≠ clientKey r2)
    (h1 : getClient env1 r1 (runGetClients calls (Proc.init fs)) = (.ok c1, p1))
    (h2 : getClient env2 r2 p1 = (.ok c2, p2)) : c1.addr ≠ c2.addr := by
  have hok : RegistryOK p2 := by
    have hp1 : RegistryOK p1 := by
      have := RegistryOK_getClient env1 r1 _ (RegistryOK_run calls _ (RegistryOK_init fs))
      rwa [h1] at this
    have := RegistryOK_getClient env2 r2 p1 hp1
    rwa [h2] at this
  have hc2 := getClient_ok_cached env2 r2 p1 p2 c2 h2
  have hc1 : mapGet p2.n.clients (clientKey r1) = some c1 := by
    have := getClient_keeps env2 r2 p1 (clientKey r1) c1
      (getClient_ok_cached env1 r1 _ p1 c1 h1)
    rwa [h2] at this
  intro haddr
  exact hkey (hok.2 _ _ c1 c2 hc1 hc2 haddr)

/-- C9: registry hit. For every registry state and every two runners with equal URL and
equal trust-bundle path, once `getClient` has succeeded for the first, `getClient` for the
second returns the same client and leaves the whole process state (cache and allocation
counter included) unchanged, also after any further `getClient` calls; a failing
`getClient` call changes no cache lookup and allocates nothing; and the client returned is
the one cached under the key of the second runner. -/
theorem getClient_hit (env1 env2 : Env) (r1 r2 : RunnerCredentials) (p p1 : Proc)
    (c : client) (hurl : r1.URL = r2.URL) (hca : r1.TLSCAFile = r2.TLSCAFile)
    (hget : getClient env1 r1 p = (.ok c, p1)) :
    getClient env2 r2 p1 = (.ok c, p1) ∧
    (∀ calls, getClient env2 r2 (runGetClients calls p1) = (.ok c, runGetClients calls p1)) ∧
    (∀ env r e p2, getClient env r p = (.error e, p2) →
      (∀ k, mapGet p2.n.clients k = mapGet p.n.clients k) ∧ p2.allocs = p.allocs) ∧
    mapGet p1.n.clients (clientKey r2) = some c := by
  have hkey : clientKey r2 = clientKey r1 := by
    simp [clientKey, hurl, hca]
  have hc := getClient_ok_cached env1 r1 p p1 c hget
  refine ⟨?_, ?_, ?_, ?_⟩
  · exact getClient_cached env2 r2 p1 c (hkey ▸ hc)
  · intro calls
    exact getClient_cached env2 r2 _ c (hkey ▸ runGetClients_keeps calls p1 _ c hc)
  · intro env r e p2 h
    have := getClient_error_state env r p p2 e h
    exact ⟨this.1, this.2.1⟩
  · exact hkey ▸ hc

/-- Witness for C9: two runners of one endpoint with different tokens, from the initial
state. -/
theorem getClient_hit_witness :
    getClient (sampleEnv 201) secondRunner
        (getClient (sampleEnv 200) sampleRunner (Proc.init [])).2 =
      (.ok { addr := 0, url := "https://ci.example.com/ci", caFile := "" },
        (getClient (sampleEnv 200) sampleRunner (Proc.init [])).2) ∧
    (∀ calls, getClient (sampleEnv 201) secondRunner
        (runGetClients calls (getClient (sampleEnv 200) sampleRunner (Proc.init [])).2) =
      (.ok { addr := 0, url := "https://ci.example.com/ci", caFile := "" },
        runGetClients calls (getClient (sampleEnv 200) sampleRunner (Proc.init [])).2)) ∧
    (∀ env r e p2, getClient env r (Proc.init []) = (.error e, p2) →
      (∀ k, mapGet p2.n.clients k = mapGet (Proc.init []).n.clients k) ∧
        p2.allocs = (Proc.init []).allocs) ∧
    mapGet (getClient (sampleEnv 200) sampleRunner (Proc.init [])).2.n.clients
      (clientKey secondRunner) =
      some { addr := 0, url := "https://ci.example.com/ci", caFile := "" } :=
  getClient_hit (sampleEnv 200) (sampleEnv 201) sampleRunner secondRunner (Proc.init [])
    (getClient (sampleEnv 200) sampleRunner (Proc.init [])).2
    { addr := 0, url := "https://ci.example.com/ci", caFile := "" } rfl rfl rfl

/-- C10, the code at the failing input: two runners whose (URL, TLSCAFile) pairs differ get
the same cache key, so the second one receives the client built for the first one, for
another endpoint and another trust bundle, and no client of its own is constructed. -/
theorem getClient_key_collision :
    (underscoreBundleRunner.URL, underscoreBundleRunner.TLSCAFile) ≠
      (underscoreURLRunner.URL, underscoreURLRunner.TLSCAFile) ∧
    clientKey underscoreBundleRunner = clientKey underscoreURLRunner ∧
    (getClient (sampleEnv 200) underscoreBundleRunner (Proc.init [])).1 =
      .ok { addr := 0, url := "https://ci.example.com/ci", caFile := "_ca.pem" } ∧
    (getClient (sampleEnv 200) underscoreURLRunner
        (getClient (sampleEnv 200) underscoreBundleRunner (Proc.init [])).2).1 =
      .ok { addr := 0, url := "https://ci.example.com/ci", caFile := "_ca.pem" } ∧
    (getClient (sampleEnv 200) underscoreURLRunner
        (getClient (sampleEnv 200) underscoreBundleRunner (Proc.init [])).2).2 =
      (getClient (sampleEnv 200) underscoreBundleRunner (Proc.init [])).2 ∧
    (getClient (sampleEnv 200) underscoreURLRunner (Proc.init [])).1 =
      .ok { addr := 0, url := "https://ci.example.com/ci_", caFile := "ca.pem" } :=
  ⟨by decide, by decide, rfl, rfl, rfl, rfl⟩

/-! ## The operations on the sample coordinator -/

/-- A 201 answer hands the job over with the trust chain attached; 204 hands over nothing
without an error; an unreachable coordinator gives the sentinel and ok = false. -/
theorem GetBuild_samples :
    (GetBuild (sampleEnv 201) sampleConfig (Proc.init [])).1 =
      (some { ID := 0, ProjectID := 0, Commands := "", RepoURL := "", Sha := "",
              RefName := "", Token := "", TLSCAChain := "CHAIN" }, true) ∧
    (GetBuild (sampleEnv 204) sampleConfig (Proc.init [])).1 = (none, true) ∧
    (GetBuild (sampleEnv 500) sampleConfig (Proc.init [])).1 = (none, true) ∧
    (GetBuild (sampleEnv 403) sampleConfig (Proc.init [])).1 = (none, false) ∧
    (getBuildExchange (sampleEnv 201) { sampleConfig with TLSCAFile := "missing.pem" }
      (Proc.init [])).1.status = clientError ∧
    (GetBuild (sampleEnv 201) { sampleConfig with TLSCAFile := "missing.pem" }
      (Proc.init [])).1 = (none, false) := by
  decide

/-- A state update is reported per status, the unreachable coordinator as an abort. -/
theorem UpdateBuild_samples :
    (UpdateBuild (sampleEnv 200) sampleConfig 7 .Running "log" (Proc.init [])).1 =
      .UpdateSucceeded ∧
    (UpdateBuild (sampleEnv 404) sampleConfig 7 .Running "log" (Proc.init [])).1 =
      .UpdateAbort ∧
    (UpdateBuild (sampleEnv 502) sampleConfig 7 .Running "log" (Proc.init [])).1 =
      .UpdateFailed ∧
    (UpdateBuild (sampleEnv clientError) sampleConfig 7 .Running "log" (Proc.init [])).1 =
      .UpdateAbort ∧
    (UpdateBuild (sampleEnv 200) sampleConfig 7 .Running "log" (Proc.init [])).2.calls =
      [{ c := { addr := 0, url := "https://ci.example.com/ci", caFile := "" },
         method := "PUT", uri := "builds/7.json" }] := by
  decide

/-- The last element of a path, as `filepath.Base` computes it. -/
theorem filepathBase_samples :
    filepathBase "out/artifacts.zip" = "artifacts.zip" ∧ filepathBase "artifacts.zip" =
      "artifacts.zip" ∧ filepathBase "" = "." ∧ filepathBase "///" = "/" ∧
    filepathBase "/var/cache/" = "cache" := by
  decide

/-- Uploading the sample archive reaches the coordinator once; a path that does not exist and
a directory are refused without any exchange. -/
theorem UploadArtifacts_samples :
    (UploadArtifacts (sampleEnv 201) sampleJob "artifacts.zip" (Proc.init sampleFS)).1 =
      .UploadSucceeded ∧
    (UploadArtifacts (sampleEnv 413) sampleJob "artifacts.zip" (Proc.init sampleFS)).1 =
      .UploadTooLarge ∧
    (UploadArtifacts (sampleEnv 413) sampleJob "artifacts.zip" (Proc.init sampleFS)).2.fs =
      sampleFS ∧
    (UploadArtifacts (sampleEnv 201) sampleJob "artifacts.zip" (Proc.init sampleFS)).2.calls =
      [{ c := { addr := 0, url := "https://ci.example.com/ci", caFile := "" },
         method := "POST", uri := "builds/7/artifacts" }] ∧
    (UploadArtifacts (sampleEnv 201) sampleJob "nothing.zip" (Proc.init sampleFS)).1 =
      .UploadFailed ∧
    (UploadArtifacts (sampleEnv 201) sampleJob "nothing.zip" (Proc.init sampleFS)).2.calls =
      [] ∧
    (UploadArtifacts (sampleEnv 201) sampleJob "target" (Proc.init sampleFS)).1 =
      .UploadFailed ∧
    (UploadArtifacts (sampleEnv 201) sampleJob "target" (Proc.init sampleFS)).2.calls =
      [] := by
  decide

/-- A download to a fresh path leaves the body there; one cut short by a failed write
leaves nothing when the file can be removed and the bytes written when it cannot; 404 is
reported as not found. -/
theorem DownloadArtifacts_samples :
    (DownloadArtifacts (sampleEnv 200) sampleJob "out.zip" (Proc.init sampleFS)).1 =
      .ret .DownloadSucceeded ∧
    fsGet (DownloadArtifacts (sampleEnv 200) sampleJob "out.zip" (Proc.init sampleFS)).2.fs
      "out.zip" = some (.file [1, 2, 3]) ∧
    (DownloadArtifacts (sampleEnv 200) sampleJob "full/out.zip" (Proc.init sampleFS)).1 =
      .ret .DownloadFailed ∧
    fsGet (DownloadArtifacts (sampleEnv 200) sampleJob "full/out.zip"
      (Proc.init sampleFS)).2.fs "full/out.zip" = none ∧
    (DownloadArtifacts (sampleEnv 404) sampleJob "out.zip" (Proc.init sampleFS)).1 =
      .ret .DownloadNotFound ∧
    (DownloadArtifacts (sampleEnv 404) sampleJob "out.zip" (Proc.init sampleFS)).2.fs =
      sampleFS ∧
    (DownloadArtifacts (sampleEnv 200) sampleJob "locked/out.zip" (Proc.init lockedFS)).2.fs =
      [("locked/out.zip", .file [1, 2]), ("locked", .dir)] := by
  decide

end network

namespace shells

/-- The method `cacheExtractor` only appends to what was written. -/
theorem cacheExtractor_appends (env : Env) (w : List Op) (options : Option archivingOptions)
    (info : ShellScriptInfo) : ∃ rest, cacheExtractor env w options info = w ++ rest := by
  unfold cacheExtractor
  cases options with
  | none => exact ⟨[], by simp⟩
  | some o =>
    simp only
    split_ifs
    · exact ⟨_, rfl⟩
    · exact ⟨[], by simp⟩
    · exact ⟨[], by simp⟩
    · exact ⟨_, rfl⟩
    · exact ⟨_, rfl⟩

/-- The method `downloadAllArtifacts` only appends to what was written. -/
theorem downloadAllArtifacts_appends (env : Env) (w : List Op)
    (dependencies : Option (List String)) (info : ShellScriptInfo) :
    ∃ rest, downloadAllArtifacts env w dependencies info = w ++ rest := by
  unfold downloadAllArtifacts
  generalize info.Build.DependsOnBuilds = builds
  induction builds generalizing w with
  | nil => exact ⟨[], by simp⟩
  | cons b bs ih =>
    rw [List.foldl_cons]
    have hstep : ∃ r1, (match b.Artifacts with
        | none => w
        | some artifacts =>
          if artifacts.Filename = "" then w
          else if (!env.IsDependent dependencies b.Name) = true then w
          else downloadArtifacts w b info) = w ++ r1 := by
      cases b.Artifacts with
      | none => exact ⟨[], by simp⟩
      | some a =>
        simp only
        split_ifs
        · exact ⟨[], by simp⟩
        · exact ⟨[], by simp⟩
        · unfold downloadArtifacts
          split_ifs
          · exact ⟨_, rfl⟩
          · exact ⟨_, rfl⟩
    obtain ⟨r1, h1⟩ := hstep
    rw [h1]
    obtain ⟨r2, h2⟩ := ih (w ++ r1)
    exact ⟨r1 ++ r2, by rw [h2, List.append_assoc]⟩

/-- What `writeCheckoutCmd` does when the commit id has at least 8 bytes. -/
theorem writeCheckoutCmd_long (w : List Op) (build : Build) (h : 8 ≤ len build.Sha) :
    writeCheckoutCmd w build = (.ret (), w ++ checkoutOps build) := by
  simp [writeCheckoutCmd, goSlice, h, checkoutOps]

/-- What `writeCheckoutCmd` does when the commit id has fewer than 8 bytes. -/
theorem writeCheckoutCmd_short (w : List Op) (build : Build) (h : len build.Sha < 8) :
    writeCheckoutCmd w build = (.panic sliceError, w) := by
  have h1 : ¬ 8 ≤ len build.Sha := by omega
  simp [writeCheckoutCmd, goSlice, h1]

/-- C11: `writeCheckoutCmd`, and `GeneratePreBuild` which always calls it, complete without a
slice-out-of-range error exactly when the build's Sha has at least 8 bytes, and panic with
that error otherwise. For every build with such a Sha the calls written are, in this order,
the notice `Checking out %s as %s...` with the first 8 bytes of Sha and the RefName, the
removal of `.git/index.lock`, and the command `git checkout -q` with the full Sha; in
`GeneratePreBuild` they follow what was written before the checkout. -/
theorem writeCheckoutCmd_completes_iff (env : Env) (w : List Op) (info : ShellScriptInfo) :
    ((writeCheckoutCmd w info.Build).1 = .ret () ↔ 8 ≤ len info.Build.Sha) ∧
    ((writeCheckoutCmd w info.Build).1 = .panic sliceError ↔ len info.Build.Sha < 8) ∧
    ((GeneratePreBuild env w info).1 = .ret () ↔ 8 ≤ len info.Build.Sha) ∧
    ((GeneratePreBuild env w info).1 = .panic sliceError ↔ len info.Build.Sha < 8) ∧
    (8 ≤ len info.Build.Sha →
      (writeCheckoutCmd w info.Build).2 =
        w ++ [.Notice "Checking out %s as %s..."
                [.bytes ((goBytes info.Build.Sha).take 8), .str info.Build.RefName],
              .RmFile ".git/index.lock",
              .Command "git" ["checkout", "-q", info.Build.Sha]] ∧
      ∃ rest, (GeneratePreBuild env w info).2 =
        preCheckout env w info ++
          [.Notice "Checking out %s as %s..."
             [.bytes ((goBytes info.Build.Sha).take 8), .str info.Build.RefName],
           .RmFile ".git/index.lock",
           .Command "git" ["checkout", "-q", info.Build.Sha]] ++ rest) := by
  by_cases h : 8 ≤ len info.Build.Sha
  · have hw := writeCheckoutCmd_long w info.Build h
    have hg := writeCheckoutCmd_long (preCheckout env w info) info.Build h
    have hlt : ¬ len info.Build.Sha < 8 := by omega
    obtain ⟨r1, h1⟩ := cacheExtractor_appends env
      (preCheckout env w info ++ checkoutOps info.Build) (env.Decode info.Build).Cache info
    obtain ⟨r2, h2⟩ := downloadAllArtifacts_appends env
      (preCheckout env w info ++ checkoutOps info.Build ++ r1)
      (env.Decode info.Build).Dependencies info
    have hgen : GeneratePreBuild env w info =
        (.ret (), preCheckout env w info ++ checkoutOps info.Build ++ r1 ++ r2) := by
      simp only [GeneratePreBuild, hg, h1, h2]
    refine ⟨?_, ?_, ?_, ?_, ?_⟩
    · simp [hw, h]
    · simp [hw, hlt]
    · simp [hgen, h]
    · simp [hgen, hlt]
    · intro _
      refine ⟨by rw [hw]; rfl, r1 ++ r2, ?_⟩
      rw [hgen]
      simp [checkoutOps]
  · have hlt : len info.Build.Sha < 8 := by omega
    have hw := writeCheckoutCmd_short w info.Build hlt
    have hg := writeCheckoutCmd_short (preCheckout env w info) info.Build hlt
    have hgen : GeneratePreBuild env w info =
        (.panic sliceError, preCheckout env w info) := by
      simp only [GeneratePreBuild, hg]
    refine ⟨?_, ?_, ?_, ?_, ?_⟩
    · simp [hw, h]
    · simp [hw, hlt]
    · simp [hgen, h]
    · simp [hgen, hlt]
    · intro h8
      exact absurd h8 h

/-- The checkout on sample builds: a full commit id, one of 7 bytes, and one of 4 characters
that take 8 bytes. -/
theorem writeCheckoutCmd_samples :
    len sampleBuild.Sha = 40 ∧
    writeCheckoutCmd [] sampleBuild =
      (.ret (),
        [.Notice "Checking out %s as %s..." [.bytes (goBytes "01234567"), .str "master"],
         .RmFile ".git/index.lock",
         .Command "git" ["checkout", "-q", "0123456789abcdef0123456789abcdef01234567"]]) ∧
    writeCheckoutCmd [] { sampleBuild with Sha := "0123456" } = (.panic sliceError, []) ∧
    writeCheckoutCmd [] { sampleBuild with Sha := "" } = (.panic sliceError, []) ∧
    len "éééé" = 8 ∧
    (writeCheckoutCmd [] { sampleBuild with Sha := "éééé" }).1 = .ret () ∧
    (writeCheckoutCmd [] { sampleBuild with Sha := "ééé" }).1 = .panic sliceError := by
  decide

/-- The pre-build script of the sample build, and its abort on a short commit id after the
clone commands were written. -/
theorem GeneratePreBuild_samples :
    GeneratePreBuild plainEnv [] { Build := sampleBuild, RunnerCommand := "" } =
      (.ret (),
        [.Variable { Key := "CI_BUILD_REF",
                     Value := "0123456789abcdef0123456789abcdef01234567", Public := true,
                     Internal := true, File := false },
         .Notice "Cloning repository..." [],
         .RmDir "/builds/project",
         .Command "git" ["clone", "https://ci.example.com/group/project.git",
           "/builds/project"],
         .Cd "/builds/project",
         .Notice "Checking out %s as %s..." [.bytes (goBytes "01234567"), .str "master"],
         .RmFile ".git/index.lock",
         .Command "git" ["checkout", "-q", "0123456789abcdef0123456789abcdef01234567"]]) ∧
    GeneratePreBuild plainEnv []
        { Build := { sampleBuild with Sha := "abc" }, RunnerCommand := "" } =
      (.panic sliceError,
        [.Variable { Key := "CI_BUILD_REF", Value := "abc", Public := true,
                     Internal := true, File := false },
         .Notice "Cloning repository..." [],
         .RmDir "/builds/project",
         .Command "git" ["clone", "https://ci.example.com/group/project.git",
           "/builds/project"],
         .Cd "/builds/project"]) := by
  decide

end shells
